import Mathlib

/-!
Verification development for a small browser repository with two UI flows:

* a chatbot widget (`src/script.js` and `src/unnamed/part_000`, two variants
  of the same script differing only in how a rendered message block is built),
  keeping an in-memory `conversationHistory` and a display area of message
  blocks;
* a report-request form handler (`src/unnamed/part_001`) that POSTs a
  research question to a fixed endpoint and renders the outcome.

The JavaScript is embedded shallowly: DOM regions become fields of explicit
state records, event handlers become state-transition functions, the
`setTimeout` bot-reply callback becomes a separate transition taking the
captured user text, randomness (`Math.floor(Math.random() * 4)`) becomes a
`Fin 4` parameter, and the wall-clock timestamp becomes a `String` parameter.
-/

/-- The character class removed by the JavaScript builtin `String.prototype.trim`:
ECMAScript WhiteSpace (TAB, VT, FF, SP, NBSP, ZWNBSP and the Unicode
space separators) and LineTerminator (LF, CR, LS, PS). -/
def isJsWhitespace (c : Char) : Bool :=
  c = '\x09' || c = '\x0a' || c = '\x0b' || c = '\x0c' || c = '\x0d'
    || c = ' ' || c = '\xa0' || c = '\u1680'
    || ('\u2000' ≤ c && c ≤ '\u200a')
    || c = '\u2028' || c = '\u2029' || c = '\u202f' || c = '\u205f'
    || c = '\u3000' || c = '\ufeff'

/-- The JavaScript builtin `value.trim()`: drop leading and trailing
whitespace / line-terminator characters. -/
def jsTrim (s : String) : String :=
  String.mk
    (((s.data.dropWhile isJsWhitespace).reverse.dropWhile isJsWhitespace).reverse)

/-- An entry of `conversationHistory`: the object `{ role, message }`
pushed by `handleUserMessage` and its timeout callback. -/
structure ChatMsg where
  role : String
  message : String
deriving DecidableEq, Repr

namespace ScriptJs

/-- A DOM child node as built by `appendMessageToDisplay` in `src/script.js`:
either an element with a `textContent` (the `<strong>` label and the
`<small>` timestamp) or a raw text node. -/
inductive DomNode where
  | element (tag : String) (textContent : String)
  | text (s : String)
deriving DecidableEq, Repr

/-- One message block `<div>` appended to `displayArea` by
`appendMessageToDisplay` in `src/script.js`: the inline styles that depend
on the sender, and the three child nodes. -/
structure MessageBlock where
  backgroundColor : String
  textAlign : String
  children : List DomNode
deriving DecidableEq, Repr

/-- The mutable state of `src/script.js`: the `conversationHistory` array,
the children of `displayArea`, and the value of `inputField`. -/
structure ChatState where
  conversationHistory : List ChatMsg
  displayBlocks : List MessageBlock
  inputValue : String
deriving DecidableEq, Repr

/-- `appendMessageToDisplay(sender, content)` from `src/script.js`
(lines 9-38): builds a `<div>` with sender-dependent styles and the children
`<strong>{sender}:</strong>`, a text node `" " ++ content ++ " "`, and
`<small>({timestamp})</small>`, and appends it to `displayArea`.
The wall-clock `timestamp` is a parameter. -/
def appendMessageToDisplay (sender content timestamp : String)
    (st : ChatState) : ChatState :=
  let messageBlock : MessageBlock :=
    { backgroundColor := if sender = "user" then "#e3f2fd" else "#f1f8e9"
      textAlign := if sender = "user" then "right" else "left"
      children :=
        [ DomNode.element "strong" (sender ++ ":")
        , DomNode.text (" " ++ content ++ " ")
        , DomNode.element "small" ("(" ++ timestamp ++ ")") ] }
  { st with displayBlocks := st.displayBlocks ++ [messageBlock] }

/-- The fixed 4-element template array of `generateBotResponse`
(`src/script.js` lines 41-46), each template interpolating `userMessage`. -/
def responses (userMessage : String) : List String :=
  [ "I received your message: \"" ++ userMessage ++ "\""
  , "That\x27s interesting! You said: \"" ++ userMessage ++ "\""
  , "Processing your input: \"" ++ userMessage ++ "\""
  , "Thank you for sharing: \"" ++ userMessage ++ "\"" ]

/-- `generateBotResponse(userMessage)` from `src/script.js` (lines 40-48):
returns `responses[Math.floor(Math.random() * responses.length)]`; the
random index is the `choice : Fin 4` parameter. -/
def generateBotResponse (userMessage : String) (choice : Fin 4) : String :=
  (responses userMessage).get ⟨choice.val, choice.isLt⟩

/-- The immediate part of `handleUserMessage` from `src/script.js`
(lines 50-61): trim the input; on empty trimmed text return with no change;
otherwise push `{role: "user", message: userText}`, render it, and clear the
input.  The scheduled `setTimeout` callback is modelled by returning
`some userText` (the text captured by the closure). -/
def handleUserMessage (timestamp : String) (st : ChatState) :
    ChatState × Option String :=
  let userText := jsTrim st.inputValue
  if userText = "" then
    (st, none)
  else
    let st1 := { st with
      conversationHistory := st.conversationHistory ++ [⟨"user", userText⟩] }
    let st2 := appendMessageToDisplay "user" userText timestamp st1
    let st3 := { st2 with inputValue := "" }
    (st3, some userText)

/-- The `setTimeout` callback of `handleUserMessage` (`src/script.js`
lines 62-66): generate the bot reply from the captured `userText`, push
`{role: "bot", message: botReply}`, and render it. -/
def botReplyTimeout (userText : String) (choice : Fin 4)
    (timestamp : String) (st : ChatState) : ChatState :=
  let botReply := generateBotResponse userText choice
  let st1 := { st with
    conversationHistory := st.conversationHistory ++ [⟨"bot", botReply⟩] }
  appendMessageToDisplay "bot" botReply timestamp st1

/-- The welcome message rendered at load time (`src/script.js` line 77). -/
def welcomeText : String :=
  "Welcome to the Chatbot Test Application! Send a message to get started."

/-- The state of `src/script.js` right after the script has run:
`conversationHistory = []`, and the top-level call
`appendMessageToDisplay("bot", welcomeText)` has rendered one block. -/
def initialChatState (timestamp : String) : ChatState :=
  appendMessageToDisplay "bot" welcomeText timestamp
    { conversationHistory := [], displayBlocks := [], inputValue := "" }

end ScriptJs

namespace Part000

/-- One message block `<div>` appended to `displayArea` by
`appendMessageToDisplay` in `src/unnamed/part_000`: the inline styles that
depend on the sender, and the `innerHTML` string assigned at line 100. -/
structure MessageBlock where
  backgroundColor : String
  textAlign : String
  innerHTML : String
deriving DecidableEq, Repr

/-- The mutable state of `src/unnamed/part_000`: the `conversationHistory`
array, the children of `displayArea`, and the value of `inputField`. -/
structure ChatState where
  conversationHistory : List ChatMsg
  displayBlocks : List MessageBlock
  inputValue : String
deriving DecidableEq, Repr

/-- `appendMessageToDisplay(sender, content)` from `src/unnamed/part_000`
(lines 9-27): builds a `<div>` with sender-dependent styles, assigns
`innerHTML` the template string
`<strong>{sender}:</strong> {content} <small>({timestamp})</small>`,
and appends it to `displayArea`. -/
def appendMessageToDisplay (sender content timestamp : String)
    (st : ChatState) : ChatState :=
  let messageBlock : MessageBlock :=
    { backgroundColor := if sender = "user" then "#e3f2fd" else "#f1f8e9"
      textAlign := if sender = "user" then "right" else "left"
      innerHTML := "<strong>" ++ sender ++ ":</strong> " ++ content
        ++ " <small>(" ++ timestamp ++ ")</small>" }
  { st with displayBlocks := st.displayBlocks ++ [messageBlock] }

/-- The fixed 4-element template array of `generateBotResponse` in
`src/unnamed/part_000` (lines 106-111), identical to the one in
`src/script.js`. -/
def responses (userMessage : String) : List String :=
  [ "I received your message: \"" ++ userMessage ++ "\""
  , "That\x27s interesting! You said: \"" ++ userMessage ++ "\""
  , "Processing your input: \"" ++ userMessage ++ "\""
  , "Thank you for sharing: \"" ++ userMessage ++ "\"" ]

/-- `generateBotResponse(userMessage)` from `src/unnamed/part_000`
(lines 105-113). -/
def generateBotResponse (userMessage : String) (choice : Fin 4) : String :=
  (responses userMessage).get ⟨choice.val, choice.isLt⟩

/-- The immediate part of `handleUserMessage` from `src/unnamed/part_000`
(lines 39-49), textually identical to the one in `src/script.js`. -/
def handleUserMessage (timestamp : String) (st : ChatState) :
    ChatState × Option String :=
  let userText := jsTrim st.inputValue
  if userText = "" then
    (st, none)
  else
    let st1 := { st with
      conversationHistory := st.conversationHistory ++ [⟨"user", userText⟩] }
    let st2 := appendMessageToDisplay "user" userText timestamp st1
    let st3 := { st2 with inputValue := "" }
    (st3, some userText)

/-- The `setTimeout` callback of `handleUserMessage` in
`src/unnamed/part_000` (lines 50-54). -/
def botReplyTimeout (userText : String) (choice : Fin 4)
    (timestamp : String) (st : ChatState) : ChatState :=
  let botReply := generateBotResponse userText choice
  let st1 := { st with
    conversationHistory := st.conversationHistory ++ [⟨"bot", botReply⟩] }
  appendMessageToDisplay "bot" botReply timestamp st1

end Part000

namespace Part001

/-- `API_ENDPOINT` from `src/unnamed/part_001` line 1. -/
def API_ENDPOINT : String :=
  "https://apim-multiagent-research.azure-api.net/research"

/-- One HTTP request as issued by the `fetch` call in `src/unnamed/part_001`
(lines 20-26): URL, method, the `Content-Type` header, and the body. -/
structure HttpRequest where
  url : String
  method : String
  contentType : String
  body : String
deriving DecidableEq, Repr

/-- A resolved `fetch` response: its `ok` flag, its `statusText`, and the
two JSON fields of its body the handler reads (`question`, `document_url`). -/
structure HttpResponse where
  ok : Bool
  statusText : String
  question : String
  document_url : String
deriving DecidableEq, Repr

/-- The outcome of the awaited `fetch`: a resolved response, or a rejection
(network error) whose `message` is caught by the `catch` block. -/
inductive FetchOutcome where
  | success (r : HttpResponse)
  | networkError (message : String)
deriving DecidableEq, Repr

/-- The DOM state touched by `src/unnamed/part_001`: the `textContent` of
`statusMessage`, the `innerHTML` of `result`, the `disabled` flag of the
button, and the value of the question box. -/
structure ReportState where
  statusMessage : String
  resultHTML : String
  buttonDisabled : Bool
  questionValue : String
deriving DecidableEq, Repr

/-- The observable effects of one run of the click handler: the final DOM
state, the HTTP requests issued, and the `alert` calls made. -/
structure ClickResult where
  state : ReportState
  requests : List HttpRequest
  alerts : List String
deriving DecidableEq, Repr

/-- Hex digit used by the `\u00XX` escapes `JSON.stringify` emits for
control characters. -/
def hexDigit (n : Nat) : Char :=
  if n < 10 then Char.ofNat (48 + n) else Char.ofNat (87 + n)

/-- The escaping `JSON.stringify` applies to one character inside a string
value: `"` and `\` are backslash-escaped, the control characters with
short forms use them, other control characters become `\u00XX`, and
everything else is copied verbatim. -/
def jsonEscapeChar (c : Char) : String :=
  if c = '"' then "\\\""
  else if c = '\\' then "\\\\"
  else if c = '\x08' then "\\b"
  else if c = '\x09' then "\\t"
  else if c = '\x0a' then "\\n"
  else if c = '\x0c' then "\\f"
  else if c = '\x0d' then "\\r"
  else if c.toNat < 0x20 then
    "\\u00" ++ String.mk [hexDigit (c.toNat / 16), hexDigit (c.toNat % 16)]
  else String.singleton c

/-- `JSON.stringify` on a string value. -/
def jsonEscape (s : String) : String :=
  String.join (s.toList.map jsonEscapeChar)

/-- `JSON.stringify({ question: q })` as built for the request body at
line 25 of `src/unnamed/part_001`. -/
def jsonStringifyQuestion (q : String) : String :=
  "\x7b\"question\":\"" ++ jsonEscape q ++ "\"\x7d"

/-- The string assigned to `result.innerHTML` on success
(`src/unnamed/part_001` lines 32-35), with the exact template whitespace. -/
def renderSuccessHTML (question document_url : String) : String :=
  "\n            <p><strong>Research Question:</strong> " ++ question
    ++ "</p>\n            <p><strong>Download Report:</strong> \n               <a href=\""
    ++ document_url ++ "\" target=\"_blank\">Download</a></p>"

/-- The button click handler of `src/unnamed/part_001` (lines 6-42).
If the trimmed question is empty: `alert` and return.  Otherwise set the
status text, clear the result, disable the button, and issue one POST with
a JSON body.  On `!response.ok` the handler throws
`new Error("Error: " ++ statusText)`; the `catch` block renders
`"Error: " ++ error.message` (so the thrown case shows a doubled prefix);
a `fetch` rejection with message `m` renders `"Error: " ++ m`.  On success
it sets the status and the result HTML.  The `finally` block re-enables
the button on every path through the `try`. -/
def clickHandler (st : ReportState) (outcome : FetchOutcome) : ClickResult :=
  let researchQuestion := jsTrim st.questionValue
  if researchQuestion = "" then
    { state := st, requests := []
      alerts := ["Please enter a research question."] }
  else
    let st1 := { st with
      statusMessage := "Generating report, please wait..."
      resultHTML := ""
      buttonDisabled := true }
    let req : HttpRequest :=
      { url := API_ENDPOINT, method := "POST"
        contentType := "application/json"
        body := jsonStringifyQuestion researchQuestion }
    let st2 :=
      match outcome with
      | FetchOutcome.networkError m =>
          { st1 with statusMessage := "Error: " ++ m }
      | FetchOutcome.success r =>
          if r.ok then
            { st1 with
              statusMessage := "Report generated successfully!"
              resultHTML := renderSuccessHTML r.question r.document_url }
          else
            { st1 with
              statusMessage := "Error: " ++ ("Error: " ++ r.statusText) }
    { state := { st2 with buttonDisabled := false }
      requests := [req], alerts := [] }

end Part001

namespace ScriptJs

/-- C4: for every input that is empty or consists only of whitespace
(trimmed value empty), `handleUserMessage` leaves the conversation log
unchanged, adds no block to the message display, and schedules no bot
reply: the state is returned untouched. -/
theorem handleUserMessage_empty_noop (timestamp : String) (st : ChatState)
    (h : jsTrim st.inputValue = "") :
    (handleUserMessage timestamp st).1.conversationHistory
        = st.conversationHistory
      ∧ (handleUserMessage timestamp st).1.displayBlocks = st.displayBlocks
      ∧ handleUserMessage timestamp st = (st, none) := by
  simp [handleUserMessage, h]

/-- Witness for C4 at the concrete whitespace input `"   "`. -/
theorem handleUserMessage_empty_noop_witness :
    jsTrim "   " = ""
      ∧ handleUserMessage "10:00:00 AM" ⟨[], [], "   "⟩
          = (⟨[], [], "   "⟩, none) :=
  ⟨by decide,
    (handleUserMessage_empty_noop "10:00:00 AM" ⟨[], [], "   "⟩ (by decide)).2.2⟩

/-- C2: for every input whose trimmed value is non-empty, one call to
`handleUserMessage` appends exactly one user message to the log
immediately and returns a scheduled reply; running the delayed callback
appends exactly one bot message, leaving the log exactly 2 entries longer
than before the call. -/
theorem handleUserMessage_appends_two (timestamp ts2 : String)
    (choice : Fin 4) (st : ChatState) (h : jsTrim st.inputValue ≠ "") :
    (handleUserMessage timestamp st).1.conversationHistory
        = st.conversationHistory ++ [⟨"user", jsTrim st.inputValue⟩]
      ∧ (handleUserMessage timestamp st).2 = some (jsTrim st.inputValue)
      ∧ (botReplyTimeout (jsTrim st.inputValue) choice ts2
            (handleUserMessage timestamp st).1).conversationHistory
          = st.conversationHistory
              ++ [⟨"user", jsTrim st.inputValue⟩,
                  ⟨"bot", generateBotResponse (jsTrim st.inputValue) choice⟩]
      ∧ (botReplyTimeout (jsTrim st.inputValue) choice ts2
            (handleUserMessage timestamp st).1).conversationHistory.length
          = st.conversationHistory.length + 2 := by
  simp [handleUserMessage, botReplyTimeout, appendMessageToDisplay, h]

/-- Witness for C2 at the concrete input `" hi "`. -/
theorem handleUserMessage_appends_two_witness :
    jsTrim " hi " ≠ ""
      ∧ (handleUserMessage "t1" ⟨[], [], " hi "⟩).1.conversationHistory
          = [] ++ [⟨"user", jsTrim " hi "⟩] :=
  ⟨by decide,
    (handleUserMessage_appends_two "t1" "t2" 0 ⟨[], [], " hi "⟩ (by decide)).1⟩

end ScriptJs

namespace ScriptJs

/-- C5: for every user message text and every choice among the 4 reply
templates, the string returned by `generateBotResponse` contains the exact
original user text surrounded by double quotes as a substring. -/
theorem generateBotResponse_quotes_user_text (userMessage : String)
    (choice : Fin 4) :
    ∃ pre post, generateBotResponse userMessage choice
      = pre ++ ("\"" ++ userMessage ++ "\"") ++ post := by
  fin_cases choice
  · exact ⟨"I received your message: ", "",
      by rw [String.append_empty]; rfl⟩
  · exact ⟨"That\x27s interesting! You said: ", "",
      by rw [String.append_empty]; rfl⟩
  · exact ⟨"Processing your input: ", "",
      by rw [String.append_empty]; rfl⟩
  · exact ⟨"Thank you for sharing: ", "",
      by rw [String.append_empty]; rfl⟩

/-- C6: the conversation log is append-only: the immediate part of
`handleUserMessage` and the delayed bot-reply callback each leave the
existing log entries and their order unchanged, only possibly appending
at the end, so the log length never decreases. -/
theorem conversationHistory_append_only (timestamp : String)
    (st : ChatState) :
    (∃ tail, (handleUserMessage timestamp st).1.conversationHistory
        = st.conversationHistory ++ tail)
      ∧ ∀ userText choice,
          ∃ tail,
            (botReplyTimeout userText choice timestamp st).conversationHistory
              = st.conversationHistory ++ tail := by
  constructor
  · by_cases h : jsTrim st.inputValue = ""
    · exact ⟨[], by simp [handleUserMessage, h]⟩
    · exact ⟨[⟨"user", jsTrim st.inputValue⟩],
        by simp [handleUserMessage, appendMessageToDisplay, h]⟩
  · intro userText choice
    exact ⟨[⟨"bot", generateBotResponse userText choice⟩],
      by simp [botReplyTimeout, appendMessageToDisplay]⟩

/-- C9: at initialization the welcome bot message is rendered into the
display but not appended to the log (the log starts empty while the
display holds one block), and both transitions preserve the relation
`display blocks = log length + 1`, so it always holds. -/
theorem welcome_display_offset (timestamp : String) :
    ((initialChatState timestamp).conversationHistory = []
      ∧ (initialChatState timestamp).displayBlocks.length
          = (initialChatState timestamp).conversationHistory.length + 1)
    ∧ (∀ ts (st : ChatState),
        st.displayBlocks.length = st.conversationHistory.length + 1 →
          (handleUserMessage ts st).1.displayBlocks.length
            = (handleUserMessage ts st).1.conversationHistory.length + 1)
    ∧ (∀ userText choice ts (st : ChatState),
        st.displayBlocks.length = st.conversationHistory.length + 1 →
          (botReplyTimeout userText choice ts st).displayBlocks.length
            = (botReplyTimeout userText choice ts st).conversationHistory.length
                + 1) := by
  refine ⟨⟨?_, ?_⟩, ?_, ?_⟩
  · simp [initialChatState, appendMessageToDisplay]
  · simp [initialChatState, appendMessageToDisplay]
  · intro ts st hinv
    by_cases h : jsTrim st.inputValue = "" <;>
      simp [handleUserMessage, appendMessageToDisplay, h, hinv]
  · intro userText choice ts st hinv
    simp [botReplyTimeout, appendMessageToDisplay, hinv]

/-- Witness for C9: the offset relation holds at the concrete initial
state and is carried through one concrete user-message step. -/
theorem welcome_display_offset_witness :
    (initialChatState "t0").displayBlocks.length
        = (initialChatState "t0").conversationHistory.length + 1
      ∧ (handleUserMessage "t1" (initialChatState "t0")).1.displayBlocks.length
        = (handleUserMessage "t1"
            (initialChatState "t0")).1.conversationHistory.length + 1 :=
  ⟨(welcome_display_offset "t0").1.2,
    (welcome_display_offset "t0").2.1 "t1" (initialChatState "t0")
      (welcome_display_offset "t0").1.2⟩

end ScriptJs

/-- C10: the two chat implementations are equivalent on the message log:
for every starting log, input value, timestamps and random template choice,
`handleUserMessage` in `src/script.js` and in `src/unnamed/part_000`
produce identical `conversationHistory` contents and schedule the same
reply, and the two delayed callbacks append identical bot entries; the
files differ only in the display block each builds. -/
theorem variants_log_equivalent (hist : List ChatMsg)
    (d1 : List ScriptJs.MessageBlock) (d2 : List Part000.MessageBlock)
    (inp ts ts2 txt : String) (choice : Fin 4) :
    (ScriptJs.handleUserMessage ts ⟨hist, d1, inp⟩).1.conversationHistory
        = (Part000.handleUserMessage ts ⟨hist, d2, inp⟩).1.conversationHistory
      ∧ (ScriptJs.handleUserMessage ts ⟨hist, d1, inp⟩).2
        = (Part000.handleUserMessage ts ⟨hist, d2, inp⟩).2
      ∧ (ScriptJs.botReplyTimeout txt choice ts2
            ⟨hist, d1, inp⟩).conversationHistory
        = (Part000.botReplyTimeout txt choice ts2
            ⟨hist, d2, inp⟩).conversationHistory := by
  refine ⟨?_, ?_, ?_⟩ <;>
    by_cases h : jsTrim inp = "" <;>
      simp [ScriptJs.handleUserMessage, Part000.handleUserMessage,
        ScriptJs.botReplyTimeout, Part000.botReplyTimeout,
        ScriptJs.appendMessageToDisplay, Part000.appendMessageToDisplay,
        ScriptJs.generateBotResponse, Part000.generateBotResponse,
        ScriptJs.responses, Part000.responses, h]

namespace Part001

/-- C3: for every question input whose trimmed value is empty, the click
handler performs no HTTP request, surfaces exactly one user-facing alert,
and leaves the whole DOM state (status region, result region, submit
control, question box) unchanged. -/
theorem empty_question_no_request (st : ReportState)
    (outcome : FetchOutcome) (h : jsTrim st.questionValue = "") :
    clickHandler st outcome
      = ⟨st, [], ["Please enter a research question."]⟩ := by
  simp [clickHandler, h]

/-- Witness for C3 at the concrete whitespace question `"  "`. -/
theorem empty_question_no_request_witness :
    jsTrim "  " = ""
      ∧ clickHandler ⟨"s", "r", false, "  "⟩ (FetchOutcome.networkError "x")
          = ⟨⟨"s", "r", false, "  "⟩, [],
              ["Please enter a research question."]⟩ :=
  ⟨by decide,
    empty_question_no_request ⟨"s", "r", false, "  "⟩
      (FetchOutcome.networkError "x") (by decide)⟩

/-- Counterexample to C1 as stated: for the question `"Q"` and a mocked
response with status 500 and status text `"Internal Server Error"`, the
status region text is not `"Error: Internal Server Error"` (the handler
throws `Error("Error: " ++ statusText)` and the catch block prepends
another `"Error: "`). -/
theorem error_status_counterexample :
    (clickHandler ⟨"", "", false, "Q"⟩
        (FetchOutcome.success
          ⟨false, "Internal Server Error", "", ""⟩)).state.statusMessage
      ≠ "Error: Internal Server Error" := by decide

/-- C1 amended: for every report submission with a non-empty trimmed
question and a response with non-2xx status, the status region text equals
`"Error: Error: "` followed by the status text (the prefix is doubled:
once by the thrown error message and once by the catch block), and the
submit control is enabled after the handler completes. -/
theorem error_status_doubled (st : ReportState) (r : HttpResponse)
    (hq : jsTrim st.questionValue ≠ "") (hok : r.ok = false) :
    (clickHandler st (FetchOutcome.success r)).state.statusMessage
        = "Error: Error: " ++ r.statusText
      ∧ (clickHandler st (FetchOutcome.success r)).state.buttonDisabled
          = false := by
  simp [clickHandler, hq, hok]
  rfl

/-- Witness for the amended C1 at the concrete question `"Q"` and status
text `"Internal Server Error"`. -/
theorem error_status_doubled_witness :
    jsTrim "Q" ≠ ""
      ∧ ((clickHandler ⟨"", "", false, "Q"⟩
            (FetchOutcome.success
              ⟨false, "Internal Server Error", "", ""⟩)).state.statusMessage
          = "Error: Error: " ++ "Internal Server Error") :=
  ⟨by decide,
    (error_status_doubled ⟨"", "", false, "Q"⟩
      ⟨false, "Internal Server Error", "", ""⟩ (by decide) rfl).1⟩

end Part001

namespace Part001

/-- C8: for every non-empty trimmed question text, the click handler
issues exactly one HTTP POST to the fixed endpoint URL with header
`Content-Type: application/json` and body the `JSON.stringify` of
`{ question: <trimmed text> }`, regardless of the fetch outcome. -/
theorem nonempty_question_posts_once (st : ReportState)
    (outcome : FetchOutcome) (h : jsTrim st.questionValue ≠ "") :
    (clickHandler st outcome).requests
      = [⟨API_ENDPOINT, "POST", "application/json",
          jsonStringifyQuestion (jsTrim st.questionValue)⟩] := by
  cases outcome <;> simp [clickHandler, h]

/-- Witness for C8 at the concrete question `" Q "`: exactly one POST with
the serialized body. -/
theorem nonempty_question_posts_once_witness :
    jsTrim " Q " ≠ ""
      ∧ (clickHandler ⟨"", "", false, " Q "⟩
            (FetchOutcome.networkError "offline")).requests
          = [⟨API_ENDPOINT, "POST", "application/json",
              jsonStringifyQuestion (jsTrim " Q ")⟩] :=
  ⟨by decide,
    nonempty_question_posts_once ⟨"", "", false, " Q "⟩
      (FetchOutcome.networkError "offline") (by decide)⟩

/-- C7: for every submission with a non-empty trimmed question and a
successful response carrying JSON fields `question` and `document_url`,
the result panel HTML contains a link whose `href` attribute equals the
`document_url` value, and contains the `question` value. -/
theorem success_renders_link (st : ReportState) (r : HttpResponse)
    (hq : jsTrim st.questionValue ≠ "") (hok : r.ok = true) :
    (∃ pre post,
        (clickHandler st (FetchOutcome.success r)).state.resultHTML
          = pre ++ ("<a href=\"" ++ r.document_url ++ "\"") ++ post)
      ∧ ∃ pre post,
          (clickHandler st (FetchOutcome.success r)).state.resultHTML
            = pre ++ r.question ++ post := by
  have hres : (clickHandler st (FetchOutcome.success r)).state.resultHTML
      = renderSuccessHTML r.question r.document_url := by
    simp [clickHandler, hq, hok]
  constructor
  · refine ⟨"\n            <p><strong>Research Question:</strong> "
        ++ r.question
        ++ "</p>\n            <p><strong>Download Report:</strong> \n               ",
      " target=\"_blank\">Download</a></p>", ?_⟩
    rw [hres, renderSuccessHTML]
    simp only [String.append_assoc]
    rfl
  · refine ⟨"\n            <p><strong>Research Question:</strong> ",
      "</p>\n            <p><strong>Download Report:</strong> \n               <a href=\""
        ++ r.document_url ++ "\" target=\"_blank\">Download</a></p>", ?_⟩
    rw [hres, renderSuccessHTML]
    simp only [String.append_assoc]

/-- Witness for C7 at the concrete question `"Q"` and document URL `"U"`. -/
theorem success_renders_link_witness :
    jsTrim "Q" ≠ ""
      ∧ (∃ pre post,
          (clickHandler ⟨"", "", false, "Q"⟩
              (FetchOutcome.success ⟨true, "OK", "Q", "U"⟩)).state.resultHTML
            = pre ++ ("<a href=\"" ++ "U" ++ "\"") ++ post) :=
  ⟨by decide,
    (success_renders_link ⟨"", "", false, "Q"⟩ ⟨true, "OK", "Q", "U"⟩
      (by decide) rfl).1⟩

end Part001
